import Mathlib

/-!
Verification development for the `facely` browser pipeline
(`src/handleGetImages.mjs` and the main module exporting `facely`).

The JavaScript source is shallowly embedded:
* JS numbers appearing here are small nonnegative integers or simple
  fractions, modelled as `ℕ` / `ℚ`; `Math.round` on a nonnegative rational
  `num / den` is `⌊num / den + 1/2⌋`, computed as `(2*num + den) / (2*den)`
  in natural-number division (`mathRound`, validated against Mathlib's
  `round` in `mathRound_eq_round`).
* `await`ed external calls (image decoding, the prediction model, the depth
  model, `fetch`) are modelled as `Except ε` values supplied through an
  `Adapters` record; a promise rejection is `Except.error`.
* The progress callback is modelled by a trace: the list of reports the
  callback received, in order.  Calling an absent (`undefined`) callback
  raises a TypeError in JS; that error value is the `te` parameter.
* DOM / three.js objects (`document.createElement("canvas")`, the scene,
  meshes) are abstract type parameters; `console.log` calls are no-ops and
  not modelled.
-/

/-- Rounding of the nonnegative rational `num / den` half away from zero,
exactly what JS `Math.round` does on nonnegative arguments:
`(2*num + den) / (2*den) = ⌊num / den + 1/2⌋` in natural division. -/
def mathRound (num den : ℕ) : ℕ :=
  (2 * num + den) / (2 * den)

/-- The record returned by `reportProgress` in the source: it has exactly
the three fields `message`, `percent`, `stage` (the latter the string
`"index/total"`). -/
structure ProgressReport where
  message : String
  percent : ℕ
  stage : String
deriving DecidableEq

/-- `reportProgress(stage, total, message, complete)` from the main module:
`percentage = Math.round(((stage*2 + (complete ? 1 : 0)) / (total*2)) * 100)`,
`isComplete = stage === total`, and the returned record caps the percent of
the final stage at 99 unless `complete` is set. -/
def reportProgress (stage total : ℕ) (message : String) (complete : Bool) :
    ProgressReport :=
  let percentage := mathRound ((stage * 2 + (if complete then 1 else 0)) * 100)
    (total * 2)
  let isComplete := stage == total
  { message := message
    percent := if isComplete then (if complete then 100 else 99) else percentage
    stage := toString stage ++ "/" ++ toString total }

/-- `mathRound` agrees with Mathlib's `round` (round half up) on
nonnegative rationals with a nonzero denominator. -/
theorem mathRound_eq_round (num den : ℕ) (hden : den ≠ 0) :
    (mathRound num den : ℤ) = round ((num : ℚ) / (den : ℚ)) := by
  have hden' : (0:ℚ) < (den : ℚ) := by
    exact_mod_cast Nat.pos_of_ne_zero hden
  rw [round_eq]
  have harg : (num : ℚ) / (den : ℚ) + 1 / 2 =
      ((2 * num + den : ℕ) : ℚ) / ((2 * den : ℕ) : ℚ) := by
    push_cast
    field_simp
    ring
  rw [harg]
  have hnn : (0:ℚ) ≤ ((2 * num + den : ℕ) : ℚ) / ((2 * den : ℕ) : ℚ) := by
    positivity
  rw [← Int.natCast_floor_eq_floor hnn, Nat.floor_div_nat, Nat.floor_natCast]
  rfl

/-- A decoded raster image (`loadImage` result); only its `width` is
consumed by the pipeline (for the derived scale factor). -/
structure Img where
  width : ℚ
deriving DecidableEq

/-- A canvas-like depth surface: `handleDepthEstimation`'s result.  Its
`toDataURL` method maps an image-format string to a data-URL encoding. -/
structure Canvas where
  toDataURL : String → String

/-- The visualization bundle returned by the prediction model, as consumed
by `getViewableImages`: a map from overlay name to the overlay resource
(`none` models an absent or falsy entry). -/
def Vis : Type := String → Option String

/-- Result shape of `getViewableImages`: overlays are kept as an
association list from overlay name to data URL. -/
structure ViewableImages where
  baseImage : Option String
  displacementMap : Option String
  overlays : List (String × String)
deriving DecidableEq

/-- Step 1 of `getViewableImages`: the base image is fetched and converted
to a data URL only when both `imageFile` and `imageUrl` are truthy
(`if (imageFile && imageUrl)` in the source). -/
def baseImageStep {ε ImgFile : Type} (fetch : String → Except ε String)
    (imageFile : Option ImgFile) (imageUrl : Option String) :
    Except ε (Option String) :=
  match imageFile, imageUrl with
  | some _, some u =>
    match fetch u with
    | .error e => .error e
    | .ok d => .ok (some d)
  | _, _ => .ok none

/-- Step 3 of `getViewableImages`: the `for (const overlay of overlayTypes)`
loop.  An overlay is converted (via `fetchToDataURL`) only when
`visualizations[overlay]` is truthy; a rejected fetch propagates. -/
def overlaysLoop {ε : Type} (fetch : String → Except ε String) (vis : Vis) :
    List String → Except ε (List (String × String))
  | [] => .ok []
  | o :: rest =>
    match vis o with
    | none => overlaysLoop fetch vis rest
    | some u =>
      match fetch u with
      | .error e => .error e
      | .ok d =>
        match overlaysLoop fetch vis rest with
        | .error e => .error e
        | .ok tail => .ok ((o, d) :: tail)

/-- `getViewableImages(imageFile, imageUrl, depthMapImage, visualizations,
overlayTypes)` from `src/handleGetImages.mjs`.  The internal
`fetchToDataURL` helper (global `fetch` + `FileReader`) is the `fetch`
parameter.  The displacement map is the canvas's own
`toDataURL("image/png")`, no fetch involved. -/
def getViewableImages {ε ImgFile : Type} (fetch : String → Except ε String)
    (imageFile : Option ImgFile) (imageUrl : Option String)
    (depthMapImage : Option Canvas) (visualizations : Vis)
    (types : List String) : Except ε ViewableImages :=
  match baseImageStep fetch imageFile imageUrl with
  | .error e => .error e
  | .ok base =>
    let displacementMap := depthMapImage.map (fun cv => cv.toDataURL "image/png")
    match overlaysLoop fetch visualizations types with
    | .error e => .error e
    | .ok ovs =>
      .ok { baseImage := base, displacementMap := displacementMap, overlays := ovs }

/-- Membership characterisation of the overlay loop: when the loop
succeeds, the produced association list has an entry for a name exactly
when the name is requested and maps to a truthy bundle entry. -/
theorem overlaysLoop_mem {ε : Type} (fetch : String → Except ε String)
    (vis : Vis) (l : List String) (L : List (String × String))
    (h : overlaysLoop fetch vis l = .ok L) (name : String) :
    (∃ d, (name, d) ∈ L) ↔ (name ∈ l ∧ (vis name).isSome) := by
  induction l generalizing L with
  | nil =>
    simp only [overlaysLoop, Except.ok.injEq] at h
    subst h
    simp
  | cons o rest ih =>
    simp only [overlaysLoop] at h
    rcases hv : vis o with _ | u
    · rw [hv] at h
      rcases eq_or_ne name o with rfl | hne
      · rw [ih L h]
        simp [hv]
      · rw [ih L h]
        simp [hne]
    · simp only [hv] at h
      rcases hf : fetch u with e | d
      · simp only [hf] at h
        exact Except.noConfusion h
      · simp only [hf] at h
        rcases ht : overlaysLoop fetch vis rest with e | tail
        · simp only [ht] at h
          exact Except.noConfusion h
        · simp only [ht, Except.ok.injEq] at h
          subst h
          rcases eq_or_ne name o with rfl | hne
          · simp [hv]
          · constructor
            · rintro ⟨x, hx⟩
              rcases List.mem_cons.1 hx with hx | hx
              · cases hx
                exact absurd rfl hne
              · have := (ih tail ht).1 ⟨x, hx⟩
                exact ⟨List.mem_cons_of_mem _ this.1, this.2⟩
            · rintro ⟨hmem, hsome⟩
              rcases List.mem_cons.1 hmem with rfl | hmem
              · exact absurd rfl hne
              · obtain ⟨x, hx⟩ := (ih tail ht).2 ⟨hmem, hsome⟩
                exact ⟨x, List.mem_cons_of_mem _ hx⟩

/-- The overlay loop never fails because of absent overlays: it succeeds as
soon as every truthy requested overlay fetches successfully. -/
theorem overlaysLoop_isOk {ε : Type} (fetch : String → Except ε String)
    (vis : Vis) (l : List String)
    (h : ∀ o ∈ l, ∀ u, vis o = some u → ∃ d, fetch u = .ok d) :
    ∃ L, overlaysLoop fetch vis l = .ok L := by
  induction l with
  | nil => exact ⟨[], rfl⟩
  | cons o rest ih =>
    obtain ⟨tail, htail⟩ := ih fun o ho u hu => h o (List.mem_cons_of_mem _ ho) u hu
    rcases hv : vis o with _ | u
    · exact ⟨tail, by simp [overlaysLoop, hv, htail]⟩
    · obtain ⟨d, hd⟩ := h o (List.mem_cons_self o rest) u hv
      exact ⟨(o, d) :: tail, by simp [overlaysLoop, hv, hd, htail]⟩

/-- The module-level configuration object literal from the main module. -/
structure Config where
  pointSize : ℚ
  pointColor : String
  outerRingColor : String
  outerRingWidth : ℚ
  triangulationColor : String
  triangulationWidth : ℚ
  invertDepth : Bool
  scaleFactor : ℚ
  baseElevation : ℚ
  minDepth : ℚ
  maxDepth : ℚ
  outputDepthRange : List ℚ
  invertDepthMap : Bool
  depthMapFormat : String
deriving DecidableEq

/-- `const config = { ... }` — the initial values of the module-level
configuration. -/
def config : Config :=
  { pointSize := 3
    pointColor := "purple"
    outerRingColor := "orange"
    outerRingWidth := 3
    triangulationColor := "cyan"
    triangulationWidth := 2
    invertDepth := true
    scaleFactor := 1
    baseElevation := 5
    minDepth := 0
    maxDepth := 1
    outputDepthRange := [0, 1]
    invertDepthMap := false
    depthMapFormat := "image/png" }

/-- `const targetSceneWidth = 10`. -/
def targetSceneWidth : ℚ := 10

/-- `const overlayTypes = [...]` — the requested overlay names. -/
def overlayTypes : List String :=
  ["combinedImage", "keypointsImage", "triangulationImage", "outerRingImage"]

/-- The external collaborators `facely` calls, in source order.  Calls that
are `await`ed (or can reject) return `Except ε`; synchronous DOM/three.js
constructions are plain functions. -/
structure Adapters (ε Scene Mesh DomCanvas ImgFile : Type) where
  createCanvasElement : DomCanvas
  createThreeDScene : DomCanvas → Scene
  createObjectURL : ImgFile → String
  loadImage : String → Except ε Img
  handlePredictions : String → Config → Except ε Vis
  generateUVTexturedFace : Scene → Vis → Img → Config → Mesh
  handleDepthEstimation : ImgFile → Config → Except ε Canvas
  getVerticesMesh : Vis → Config → Mesh
  getEdgesMesh : Vis → Config → Mesh
  getFacesMesh : Vis → Config → Mesh
  fetch : String → Except ε String

/-- The data fields of the object `facely` resolves with.  The `add.*` and
`download` members are closures over values already present here
(`scene`, `texturedMesh`, the visualization bundle, the configuration) and
are not modelled separately. -/
structure FacelyResult (Scene Mesh DomCanvas : Type) where
  canvas : DomCanvas
  scene : Scene
  texturedMesh : Mesh
  image : ViewableImages
  verticesMesh : Mesh
  edgesMesh : Mesh
  facesMesh : Mesh

/-- One `progress(reportProgress(...))` call site.  When the caller passed
a callback the report is appended to the delivered-report trace; when the
callback is absent (`undefined` in JS) the call itself raises a TypeError,
modelled by the error value `te`. -/
def progressCall {ε : Type} (hasCallback : Bool) (te : ε)
    (tr : List ProgressReport) (r : ProgressReport) :
    Except ε (List ProgressReport) :=
  if hasCallback then .ok (tr ++ [r]) else .error te

/-- The `facely(imageFile, progress)` pipeline.  `hasCallback` records
whether a `progress` callback was supplied; `c0` is the value of the
module-level `config` when the run starts.  The returned pair is the
settled promise (`.ok` result or `.error` rejection) together with the
trace of reports delivered to the callback, in order. -/
def facely {ε Scene Mesh DomCanvas ImgFile : Type} (hasCallback : Bool)
    (te : ε) (A : Adapters ε Scene Mesh DomCanvas ImgFile)
    (imageFile : ImgFile) (c0 : Config) :
    Except ε (FacelyResult Scene Mesh DomCanvas) × List ProgressReport :=
  match progressCall hasCallback te [] (reportProgress 0 6 "setting up..." false) with
  | .error e => (.error e, [])
  | .ok t1 =>
    let newCanvas := A.createCanvasElement
    let newScene := A.createThreeDScene newCanvas
    match progressCall hasCallback te t1 (reportProgress 0 6 "setting up complete!" true) with
    | .error e => (.error e, t1)
    | .ok t2 =>
      match progressCall hasCallback te t2 (reportProgress 1 6 "uploading..." false) with
      | .error e => (.error e, t2)
      | .ok t3 =>
        let imageUrl := A.createObjectURL imageFile
        match progressCall hasCallback te t3 (reportProgress 1 6 "uploading complete!" true) with
        | .error e => (.error e, t3)
        | .ok t4 =>
          match progressCall hasCallback te t4 (reportProgress 2 6 "generating preview..." false) with
          | .error e => (.error e, t4)
          | .ok t5 =>
            match A.loadImage imageUrl with
            | .error e => (.error e, t5)
            | .ok img =>
              let scaleFactor := targetSceneWidth / img.width
              let conf := { c0 with scaleFactor := scaleFactor }
              match progressCall hasCallback te t5 (reportProgress 2 6 "preview generated!" true) with
              | .error e => (.error e, t5)
              | .ok t6 =>
                match progressCall hasCallback te t6 (reportProgress 3 6 "making predictions..." false) with
                | .error e => (.error e, t6)
                | .ok t7 =>
                  match A.handlePredictions imageUrl conf with
                  | .error e => (.error e, t7)
                  | .ok visualizations =>
                    match progressCall hasCallback te t7 (reportProgress 3 6 "predictions complete!" true) with
                    | .error e => (.error e, t7)
                    | .ok t8 =>
                      match progressCall hasCallback te t8 (reportProgress 4 6 "generating 3D objects..." false) with
                      | .error e => (.error e, t8)
                      | .ok t9 =>
                        let uvFaceMesh := A.generateUVTexturedFace newScene visualizations img conf
                        match progressCall hasCallback te t9 (reportProgress 4 6 "3D objects generated!" true) with
                        | .error e => (.error e, t9)
                        | .ok t10 =>
                          match progressCall hasCallback te t10 (reportProgress 5 6 "starting depth estimation..." false) with
                          | .error e => (.error e, t10)
                          | .ok t11 =>
                            match A.handleDepthEstimation imageFile conf with
                            | .error e => (.error e, t11)
                            | .ok depthEstimationResult =>
                              match progressCall hasCallback te t11 (reportProgress 5 6 "depth estimation complete!" true) with
                              | .error e => (.error e, t11)
                              | .ok t12 =>
                                match progressCall hasCallback te t12 (reportProgress 6 6 "reviewing process..." false) with
                                | .error e => (.error e, t12)
                                | .ok t13 =>
                                  match progressCall hasCallback te t13 (reportProgress 6 6 "process complete!" true) with
                                  | .error e => (.error e, t13)
                                  | .ok t14 =>
                                    match getViewableImages A.fetch (some imageFile) (some imageUrl)
                                        (some depthEstimationResult) visualizations overlayTypes with
                                    | .error e => (.error e, t14)
                                    | .ok imagesObject =>
                                      (.ok { canvas := newCanvas
                                             scene := newScene
                                             texturedMesh := uvFaceMesh
                                             image := imagesObject
                                             verticesMesh := A.getVerticesMesh visualizations conf
                                             edgesMesh := A.getEdgesMesh visualizations conf
                                             facesMesh := A.getFacesMesh visualizations conf }, t14)

/-- The `(stage, message, completionFlag)` arguments of the fourteen
`reportProgress` calls of one full run, in source order. -/
def successStageArgs : List (ℕ × String × Bool) :=
  [(0, "setting up...", false), (0, "setting up complete!", true),
   (1, "uploading...", false), (1, "uploading complete!", true),
   (2, "generating preview...", false), (2, "preview generated!", true),
   (3, "making predictions...", false), (3, "predictions complete!", true),
   (4, "generating 3D objects...", false), (4, "3D objects generated!", true),
   (5, "starting depth estimation...", false), (5, "depth estimation complete!", true),
   (6, "reviewing process...", false), (6, "process complete!", true)]

/-- The report trace of a fully successful run. -/
def successTrace : List ProgressReport :=
  successStageArgs.map fun a => reportProgress a.1 6 a.2.1 a.2.2

/-- A successful run delivers exactly the fourteen-report success trace. -/
theorem facely_ok_trace {ε Scene Mesh DomCanvas ImgFile : Type}
    (te : ε) (A : Adapters ε Scene Mesh DomCanvas ImgFile)
    (f : ImgFile) (c0 : Config) (r : FacelyResult Scene Mesh DomCanvas)
    (tr : List ProgressReport)
    (h : facely true te A f c0 = (.ok r, tr)) : tr = successTrace := by
  simp only [facely, progressCall] at h
  rcases hload : A.loadImage (A.createObjectURL f) with e | img
  · simp only [hload] at h
    simp at h
  · simp only [hload] at h
    rcases hpred : A.handlePredictions (A.createObjectURL f)
        { c0 with scaleFactor := targetSceneWidth / img.width } with e | vis
    · simp only [hpred] at h
      simp at h
    · simp only [hpred] at h
      rcases hdepth : A.handleDepthEstimation f
          { c0 with scaleFactor := targetSceneWidth / img.width } with e | depth
      · simp only [hdepth] at h
        simp at h
      · simp only [hdepth] at h
        rcases himg : getViewableImages A.fetch (some f) (some (A.createObjectURL f))
            (some depth) vis overlayTypes with e | io
        · simp only [himg] at h
          simp at h
        · simp only [himg] at h
          have h2 := congrArg Prod.snd h
          simp at h2
          rw [← h2]
          decide

/-- A concrete depth surface used to evaluate the theorems. -/
def demoCanvas : Canvas := ⟨fun _ => "data:image/png;base64,demo"⟩

/-- A concrete visualization bundle: only `combinedImage` is present. -/
def demoVis : Vis := fun o => if o = "combinedImage" then some "overlay-url" else none

/-- Concrete adapters under which every external call succeeds. -/
def demoAdapters : Adapters ℕ ℕ ℕ ℕ ℕ :=
  { createCanvasElement := 0
    createThreeDScene := fun _ => 1
    createObjectURL := fun _ => "blob:demo"
    loadImage := fun _ => .ok ⟨512⟩
    handlePredictions := fun _ _ => .ok demoVis
    generateUVTexturedFace := fun _ _ _ _ => 2
    handleDepthEstimation := fun _ _ => .ok demoCanvas
    getVerticesMesh := fun _ _ => 3
    getEdgesMesh := fun _ _ => 4
    getFacesMesh := fun _ _ => 5
    fetch := fun _ => .ok "data:demo" }

/-- The materializer output of the demo run. -/
def demoImages : ViewableImages :=
  { baseImage := some "data:demo"
    displacementMap := some "data:image/png;base64,demo"
    overlays := [("combinedImage", "data:demo")] }

/-- The pipeline result of the demo run. -/
def demoResult : FacelyResult ℕ ℕ ℕ :=
  { canvas := 0, scene := 1, texturedMesh := 2, image := demoImages
    verticesMesh := 3, edgesMesh := 4, facesMesh := 5 }

/-- C2: over one successful run, the trace is the success trace, whose
stage indices are emitted in increasing stage order (non-decreasing report
by report, strictly increasing across distinct stages); exactly the last
report carries percent 100, every other report carries percent at most
99. -/
theorem facely_progress_monotone_and_final_percent
    {ε Scene Mesh DomCanvas ImgFile : Type}
    (te : ε) (A : Adapters ε Scene Mesh DomCanvas ImgFile)
    (f : ImgFile) (c0 : Config) (r : FacelyResult Scene Mesh DomCanvas)
    (tr : List ProgressReport)
    (h : facely true te A f c0 = (.ok r, tr)) :
    tr = successTrace
    ∧ tr.map (fun rep => rep.stage) =
        successStageArgs.map (fun a => toString a.1 ++ "/" ++ toString 6)
    ∧ List.Pairwise (· ≤ ·) (successStageArgs.map (fun a => a.1))
    ∧ List.Chain' (· < ·) ((successStageArgs.map (fun a => a.1)).dedup)
    ∧ tr.getLast?.map (fun rep => rep.percent) = some 100
    ∧ ∀ rep ∈ tr.dropLast, rep.percent ≤ 99 := by
  have htr := facely_ok_trace te A f c0 r tr h
  subst htr
  refine ⟨rfl, by decide, by decide, ?_, by decide, by decide⟩
  norm_num [successStageArgs, List.dedup_cons_of_mem, List.dedup_cons_of_not_mem,
    List.chain'_cons]

/-- Closed instance of `facely_progress_monotone_and_final_percent` on the
demo adapters. -/
theorem facely_progress_monotone_and_final_percent_witness :
    facely true 7 demoAdapters 0 config = (.ok demoResult, successTrace)
    ∧ successTrace.getLast?.map (fun rep => rep.percent) = some 100
    ∧ ∀ rep ∈ successTrace.dropLast, rep.percent ≤ 99 := by
  have happ := facely_progress_monotone_and_final_percent 7 demoAdapters 0 config
    demoResult successTrace rfl
  exact ⟨rfl, happ.2.2.2.2.1, happ.2.2.2.2.2⟩

/-- C4: a successful run invokes the progress callback exactly fourteen
times: a started/complete pair for each of the six enumerated stages
(indices 0-5) plus the two reports of the trailing stage-6 review phase. -/
theorem facely_callback_count {ε Scene Mesh DomCanvas ImgFile : Type}
    (te : ε) (A : Adapters ε Scene Mesh DomCanvas ImgFile)
    (f : ImgFile) (c0 : Config) (r : FacelyResult Scene Mesh DomCanvas)
    (tr : List ProgressReport)
    (h : facely true te A f c0 = (.ok r, tr)) :
    tr.length = 14
    ∧ tr = successTrace
    ∧ (∀ s : ℕ, s < 6 →
        (successStageArgs.filter (fun a => a.1 = s)).map (fun a => a.2.2) = [false, true])
    ∧ (successStageArgs.filter (fun a => a.1 = 6)).map (fun a => a.2.2) = [false, true] := by
  have htr := facely_ok_trace te A f c0 r tr h
  subst htr
  exact ⟨by decide, rfl, by decide, by decide⟩

/-- Closed instance of `facely_callback_count` on the demo adapters. -/
theorem facely_callback_count_witness :
    facely true 7 demoAdapters 0 config = (.ok demoResult, successTrace)
    ∧ successTrace.length = 14 := by
  have happ := facely_callback_count 7 demoAdapters 0 config demoResult successTrace rfl
  exact ⟨rfl, happ.1⟩

/-- C8 (code behaviour): when no progress callback is supplied, the very
first `progress(...)` call raises a TypeError, so the run rejects with
that error before any stage executes and the callback count is zero —
regardless of the adapters and the image. -/
theorem facely_missing_callback_rejects {ε Scene Mesh DomCanvas ImgFile : Type}
    (te : ε) (A : Adapters ε Scene Mesh DomCanvas ImgFile)
    (f : ImgFile) (c0 : Config) :
    facely false te A f c0 = (.error te, []) := rfl

/-- C3: if the prediction call rejects, the run rejects with exactly that
error value, the trace stops at the seventh report ("making
predictions..."), and the outcome is independent of the mesh-building,
depth-estimation and materialization collaborators — they are never
executed. -/
theorem facely_prediction_rejection
    {ε Scene Mesh DomCanvas ImgFile : Type}
    (te : ε) (A : Adapters ε Scene Mesh DomCanvas ImgFile)
    (f : ImgFile) (c0 : Config) (img : Img) (e : ε)
    (hload : A.loadImage (A.createObjectURL f) = .ok img)
    (hpred : A.handlePredictions (A.createObjectURL f)
        { c0 with scaleFactor := targetSceneWidth / img.width } = .error e) :
    facely true te A f c0 = (.error e, successTrace.take 7)
    ∧ ∀ A' : Adapters ε Scene Mesh DomCanvas ImgFile,
        A'.createCanvasElement = A.createCanvasElement →
        A'.createThreeDScene = A.createThreeDScene →
        A'.createObjectURL = A.createObjectURL →
        A'.loadImage = A.loadImage →
        A'.handlePredictions = A.handlePredictions →
        facely true te A' f c0 = (.error e, successTrace.take 7) := by
  constructor
  · simp only [facely, progressCall, hload, hpred]
    simp
    decide
  · intro A' h1 h2 h3 h4 h5
    simp only [facely, progressCall, h1, h2, h3, h4, h5, hload, hpred]
    simp
    decide

/-- Adapters whose prediction stage rejects with error value 42. -/
def demoPredFail : Adapters ℕ ℕ ℕ ℕ ℕ :=
  { demoAdapters with handlePredictions := fun _ _ => .error 42 }

/-- Closed instance of `facely_prediction_rejection`. -/
theorem facely_prediction_rejection_witness :
    demoPredFail.loadImage (demoPredFail.createObjectURL 0) = .ok ⟨512⟩
    ∧ demoPredFail.handlePredictions (demoPredFail.createObjectURL 0)
        { config with scaleFactor := targetSceneWidth / (Img.mk 512).width } = .error 42
    ∧ facely true 7 demoPredFail 0 config = (.error 42, successTrace.take 7) :=
  ⟨rfl, rfl,
    (facely_prediction_rejection 7 demoPredFail 0 config ⟨512⟩ 42 rfl rfl).1⟩

/-- C6: within one run the configuration consumed by every stage is the
single value obtained from the incoming configuration by updating only the
derived `scaleFactor` field, computed once as
`targetSceneWidth / image width`. -/
theorem facely_config_single_update
    {ε Scene Mesh DomCanvas ImgFile : Type}
    (te : ε) (A : Adapters ε Scene Mesh DomCanvas ImgFile)
    (f : ImgFile) (c0 : Config) (img : Img)
    (hload : A.loadImage (A.createObjectURL f) = .ok img) :
    ({ { c0 with scaleFactor := targetSceneWidth / img.width } with
        scaleFactor := c0.scaleFactor } = c0)
    ∧ (({ c0 with scaleFactor := targetSceneWidth / img.width } : Config).scaleFactor
        = targetSceneWidth / img.width)
    ∧ facely true te A f c0 =
        facely true te
          { A with
            handlePredictions := fun u _ => A.handlePredictions u
              { c0 with scaleFactor := targetSceneWidth / img.width }
            generateUVTexturedFace := fun s v i _ => A.generateUVTexturedFace s v i
              { c0 with scaleFactor := targetSceneWidth / img.width }
            handleDepthEstimation := fun fl _ => A.handleDepthEstimation fl
              { c0 with scaleFactor := targetSceneWidth / img.width }
            getVerticesMesh := fun v _ => A.getVerticesMesh v
              { c0 with scaleFactor := targetSceneWidth / img.width }
            getEdgesMesh := fun v _ => A.getEdgesMesh v
              { c0 with scaleFactor := targetSceneWidth / img.width }
            getFacesMesh := fun v _ => A.getFacesMesh v
              { c0 with scaleFactor := targetSceneWidth / img.width } }
          f c0 := by
  refine ⟨rfl, rfl, ?_⟩
  simp only [facely, progressCall, hload]

/-- Closed instance of `facely_config_single_update` on the demo
adapters. -/
theorem facely_config_single_update_witness :
    demoAdapters.loadImage (demoAdapters.createObjectURL 0) = .ok ⟨512⟩
    ∧ (({ { config with scaleFactor := targetSceneWidth / (Img.mk 512).width } with
          scaleFactor := config.scaleFactor } = config)
       ∧ (({ config with scaleFactor := targetSceneWidth / (Img.mk 512).width } : Config).scaleFactor
          = targetSceneWidth / (Img.mk 512).width)
       ∧ facely true 7 demoAdapters 0 config =
          facely true 7
            { demoAdapters with
              handlePredictions := fun u _ => demoAdapters.handlePredictions u
                { config with scaleFactor := targetSceneWidth / (Img.mk 512).width }
              generateUVTexturedFace := fun s v i _ => demoAdapters.generateUVTexturedFace s v i
                { config with scaleFactor := targetSceneWidth / (Img.mk 512).width }
              handleDepthEstimation := fun fl _ => demoAdapters.handleDepthEstimation fl
                { config with scaleFactor := targetSceneWidth / (Img.mk 512).width }
              getVerticesMesh := fun v _ => demoAdapters.getVerticesMesh v
                { config with scaleFactor := targetSceneWidth / (Img.mk 512).width }
              getEdgesMesh := fun v _ => demoAdapters.getEdgesMesh v
                { config with scaleFactor := targetSceneWidth / (Img.mk 512).width }
              getFacesMesh := fun v _ => demoAdapters.getFacesMesh v
                { config with scaleFactor := targetSceneWidth / (Img.mk 512).width } }
            0 config) :=
  ⟨rfl, facely_config_single_update 7 demoAdapters 0 config ⟨512⟩ rfl⟩

/-- C1: below the final stage the percent is exactly
`round(((stage*2 + flag) / (total*2)) * 100)` (Mathlib's `round`, i.e.
round half up, matching JS `Math.round` on nonnegative input); at the
final stage the percent is 99 without the completion flag and 100 with
it. -/
theorem reportProgress_percent_spec (s t : ℕ) (m : String) (c : Bool) :
    (s < t → ((reportProgress s t m c).percent : ℤ) =
        round ((((s : ℚ) * 2 + (if c then 1 else 0)) / ((t : ℚ) * 2)) * 100))
    ∧ (reportProgress t t m c).percent = (if c then 100 else 99) := by
  constructor
  · intro hst
    have hne : (s == t) = false := by
      simp [Nat.ne_of_lt hst]
    have ht0 : t * 2 ≠ 0 := by omega
    simp only [reportProgress, hne, Bool.false_eq_true, if_false]
    rw [mathRound_eq_round _ _ ht0]
    congr 1
    cases c
    · push_cast
      rw [div_mul_eq_mul_div]
    · push_cast
      rw [div_mul_eq_mul_div]
  · simp [reportProgress]

/-- Closed instance of `reportProgress_percent_spec` at stage 2 of 6 and
at the final stage. -/
theorem reportProgress_percent_spec_witness :
    ((2 : ℕ) < 6
      ∧ ((reportProgress 2 6 "preview generated!" true).percent : ℤ) =
          round ((((2 : ℚ) * 2 + (if true then 1 else 0)) / ((6 : ℚ) * 2)) * 100))
    ∧ (reportProgress 6 6 "process complete!" true).percent = (if true then 100 else 99) :=
  ⟨⟨by decide,
    (reportProgress_percent_spec 2 6 "preview generated!" true).1 (by decide)⟩,
   (reportProgress_percent_spec 6 6 "process complete!" true).2⟩

/-- C7 counterexample: two `reportProgress` invocations that differ only in
the completion flag produce identical records, so the emitted record does
not contain (or determine) the completion flag. -/
theorem reportProgress_no_completion_flag_field :
    reportProgress 0 101 "reviewing process..." false =
      reportProgress 0 101 "reviewing process..." true := by decide

/-- C7 amended: a progress report is a record of exactly three components:
the message, the percent, and a stage string combining stage index and
total as `"index/total"`; the completion flag is not one of its fields. -/
theorem reportProgress_record_shape (s t : ℕ) (m : String) (c : Bool) :
    (reportProgress s t m c).message = m
    ∧ (reportProgress s t m c).stage = toString s ++ "/" ++ toString t
    ∧ ∀ r₁ r₂ : ProgressReport, r₁.message = r₂.message → r₁.percent = r₂.percent →
        r₁.stage = r₂.stage → r₁ = r₂ := by
  refine ⟨rfl, rfl, ?_⟩
  intro r₁ r₂ h1 h2 h3
  cases r₁
  cases r₂
  simp_all

/-- Closed instance of `reportProgress_record_shape`. -/
theorem reportProgress_record_shape_witness :
    (reportProgress 3 6 "making predictions..." false).message = "making predictions..."
    ∧ (reportProgress 3 6 "making predictions..." false).stage = "3/6"
    ∧ ProgressReport.mk "a" 5 "1/6" = ProgressReport.mk "a" 5 "1/6" :=
  ⟨(reportProgress_record_shape 3 6 "making predictions..." false).1,
   by simpa using (reportProgress_record_shape 3 6 "making predictions..." false).2.1,
   (reportProgress_record_shape 3 6 "making predictions..." false).2.2 _ _ rfl rfl rfl⟩

/-- A concrete always-succeeding fetch used to evaluate the materializer
theorems. -/
def demoFetch : String → Except ℕ String := fun _ => .ok "data:demo"

/-- C5: on success, the overlays map has an entry exactly for the names
occurring both in the requested list and as truthy bundle entries; and
absent overlays never cause an error — the call succeeds as soon as the
base-image step and the fetches of the present requested overlays do. -/
theorem getViewableImages_overlays_exact {ε ImgFile : Type}
    (fetch : String → Except ε String) (imageFile : Option ImgFile)
    (imageUrl : Option String) (depthMapImage : Option Canvas)
    (vis : Vis) (types : List String) :
    (∀ r, getViewableImages fetch imageFile imageUrl depthMapImage vis types = .ok r →
      ∀ name, ((∃ d, (name, d) ∈ r.overlays) ↔ (name ∈ types ∧ (vis name).isSome)))
    ∧ ((∃ b, baseImageStep fetch imageFile imageUrl = .ok b) →
       (∀ o ∈ types, ∀ u, vis o = some u → ∃ d, fetch u = .ok d) →
       ∃ r, getViewableImages fetch imageFile imageUrl depthMapImage vis types = .ok r) := by
  constructor
  · intro r h name
    rcases hb : baseImageStep fetch imageFile imageUrl with e | b
    · simp only [getViewableImages, hb] at h
      exact Except.noConfusion h
    · simp only [getViewableImages, hb] at h
      rcases hl : overlaysLoop fetch vis types with e | L
      · simp only [hl] at h
        exact Except.noConfusion h
      · simp only [hl, Except.ok.injEq] at h
        rw [← h]
        exact overlaysLoop_mem fetch vis types L hl name
  · rintro ⟨b, hb⟩ hall
    obtain ⟨L, hL⟩ := overlaysLoop_isOk fetch vis types hall
    exact ⟨{ baseImage := b,
             displacementMap := depthMapImage.map (fun cv => cv.toDataURL "image/png"),
             overlays := L }, by simp [getViewableImages, hb, hL]⟩

/-- Closed instance of `getViewableImages_overlays_exact`: the overlay
present in both the request and the bundle is materialized, and the call
succeeds although three requested overlays are absent from the bundle. -/
theorem getViewableImages_overlays_exact_witness :
    ("combinedImage" ∈ overlayTypes ∧ (demoVis "combinedImage").isSome)
    ∧ getViewableImages demoFetch (some 0) (some "blob:demo") none demoVis overlayTypes =
        .ok (ViewableImages.mk (some "data:demo") none [("combinedImage", "data:demo")]) :=
  ⟨((getViewableImages_overlays_exact demoFetch (some 0) (some "blob:demo") none demoVis
        overlayTypes).1
      (ViewableImages.mk (some "data:demo") none [("combinedImage", "data:demo")]) rfl
      "combinedImage").mp ⟨"data:demo", by decide⟩,
   rfl⟩

/-- Helper for C9: when the base-image step is skipped (either input
missing), the run keeps `baseImage = null` and succeeds as soon as the
overlay fetches do. -/
theorem getViewableImages_base_none {ε ImgFile : Type}
    (fetch : String → Except ε String) (imageFile : Option ImgFile)
    (imageUrl : Option String) (depthMapImage : Option Canvas)
    (vis : Vis) (types : List String)
    (hbase : baseImageStep fetch imageFile imageUrl = .ok none) :
    (∀ r, getViewableImages fetch imageFile imageUrl depthMapImage vis types = .ok r →
        r.baseImage = none)
    ∧ ((∀ o ∈ types, ∀ u, vis o = some u → ∃ d, fetch u = .ok d) →
        ∃ r, getViewableImages fetch imageFile imageUrl depthMapImage vis types = .ok r) := by
  constructor
  · intro r h
    simp only [getViewableImages, hbase] at h
    rcases hl : overlaysLoop fetch vis types with e | L
    · simp only [hl] at h
      exact Except.noConfusion h
    · simp only [hl, Except.ok.injEq] at h
      rw [← h]
  · intro hall
    obtain ⟨L, hL⟩ := overlaysLoop_isOk fetch vis types hall
    exact ⟨{ baseImage := none,
             displacementMap := depthMapImage.map (fun cv => cv.toDataURL "image/png"),
             overlays := L }, by simp [getViewableImages, hbase, hL]⟩

/-- C9: `baseImage` is populated with the fetched data URL of the image
URL exactly when both the image file and the image URL are truthy; when
either is missing, `baseImage` stays null and the missing input raises no
error (the call still succeeds whenever the overlay fetches do). -/
theorem getViewableImages_baseImage_spec {ε ImgFile : Type}
    (fetch : String → Except ε String) (imageFile : Option ImgFile)
    (imageUrl : Option String) (depthMapImage : Option Canvas)
    (vis : Vis) (types : List String) :
    (∀ fl u d r, imageFile = some fl → imageUrl = some u → fetch u = .ok d →
        getViewableImages fetch imageFile imageUrl depthMapImage vis types = .ok r →
        r.baseImage = some d)
    ∧ ((imageFile = none ∨ imageUrl = none) →
        (∀ r, getViewableImages fetch imageFile imageUrl depthMapImage vis types = .ok r →
            r.baseImage = none)
        ∧ ((∀ o ∈ types, ∀ u, vis o = some u → ∃ d, fetch u = .ok d) →
            ∃ r, getViewableImages fetch imageFile imageUrl depthMapImage vis types = .ok r)) := by
  constructor
  · rintro fl u d r rfl rfl hd h
    simp only [getViewableImages, baseImageStep, hd] at h
    rcases hl : overlaysLoop fetch vis types with e | L
    · simp only [hl] at h
      exact Except.noConfusion h
    · simp only [hl, Except.ok.injEq] at h
      rw [← h]
  · intro hm
    have hbase : baseImageStep fetch imageFile imageUrl = .ok none := by
      rcases hm with rfl | rfl
      · rfl
      · cases imageFile <;> rfl
    exact getViewableImages_base_none fetch imageFile imageUrl depthMapImage vis types hbase

/-- Closed instance of `getViewableImages_baseImage_spec`: with both
inputs present the base image is the fetched data URL; with the URL
missing it stays null. -/
theorem getViewableImages_baseImage_spec_witness :
    getViewableImages demoFetch (some 0) (some "blob:demo") none demoVis overlayTypes =
      .ok (ViewableImages.mk (some "data:demo") none [("combinedImage", "data:demo")])
    ∧ (ViewableImages.mk (some "data:demo") none
        [("combinedImage", "data:demo")]).baseImage = some "data:demo"
    ∧ (ViewableImages.mk none none [("combinedImage", "data:demo")]).baseImage = none :=
  ⟨rfl,
   (getViewableImages_baseImage_spec demoFetch (some 0) (some "blob:demo") none demoVis
       overlayTypes).1 0 "blob:demo" "data:demo"
     (ViewableImages.mk (some "data:demo") none [("combinedImage", "data:demo")])
     rfl rfl rfl rfl,
   ((getViewableImages_baseImage_spec demoFetch (some 0) none none demoVis
       overlayTypes).2 (Or.inr rfl)).1
     (ViewableImages.mk none none [("combinedImage", "data:demo")]) rfl⟩

/-- C10: the displacement map of a successful materialization is the depth
surface's own PNG data-URL encoding — `none` exactly when no depth surface
was supplied — and is produced without any fetch (the right-hand side does
not involve the fetch function). -/
theorem getViewableImages_displacementMap_spec {ε ImgFile : Type}
    (fetch : String → Except ε String) (imageFile : Option ImgFile)
    (imageUrl : Option String) (depthMapImage : Option Canvas)
    (vis : Vis) (types : List String) (r : ViewableImages)
    (h : getViewableImages fetch imageFile imageUrl depthMapImage vis types = .ok r) :
    r.displacementMap = depthMapImage.map (fun cv => cv.toDataURL "image/png")
    ∧ (depthMapImage = none → r.displacementMap = none)
    ∧ (∀ cv, depthMapImage = some cv →
        r.displacementMap = some (cv.toDataURL "image/png")) := by
  have key : r.displacementMap = depthMapImage.map (fun cv => cv.toDataURL "image/png") := by
    rcases hb : baseImageStep fetch imageFile imageUrl with e | b
    · simp only [getViewableImages, hb] at h
      exact Except.noConfusion h
    · simp only [getViewableImages, hb] at h
      rcases hl : overlaysLoop fetch vis types with e | L
      · simp only [hl] at h
        exact Except.noConfusion h
      · simp only [hl, Except.ok.injEq] at h
        rw [← h]
  refine ⟨key, ?_, ?_⟩
  · intro hd
    rw [key, hd]
    rfl
  · intro cv hd
    rw [key, hd]
    rfl

/-- Closed instance of `getViewableImages_displacementMap_spec` with a
depth surface supplied. -/
theorem getViewableImages_displacementMap_spec_witness :
    getViewableImages demoFetch (some 0) (some "blob:demo") (some demoCanvas) demoVis
      overlayTypes =
      .ok (ViewableImages.mk (some "data:demo") (some "data:image/png;base64,demo")
        [("combinedImage", "data:demo")])
    ∧ (ViewableImages.mk (some "data:demo") (some "data:image/png;base64,demo")
        [("combinedImage", "data:demo")]).displacementMap =
          some (demoCanvas.toDataURL "image/png") :=
  ⟨rfl,
   (getViewableImages_displacementMap_spec demoFetch (some 0) (some "blob:demo")
       (some demoCanvas) demoVis overlayTypes
       (ViewableImages.mk (some "data:demo") (some "data:image/png;base64,demo")
         [("combinedImage", "data:demo")]) rfl).2.2 demoCanvas rfl⟩
